import Mathlib

/-!
Verification development for the pose-analyzer pipeline (`app.py`).

The Python module is shallowly embedded: floating-point numbers become `Rat`
(the claims under study are structural — counts, alignment, verbatim copying,
branch selection — not about float rounding), Python dicts holding landmark
records become association lists from `String` keys to `Rat` values (the key
set matters: the CSV writer indexes a key the extractor never stores),
filesystem writes become explicit `filesWritten` lists, raised exceptions
become `Except.error`, and the ambient nondeterminism (the video container,
the MediaPipe detector, `datetime.now()`) becomes explicit parameters.
-/

namespace PoseAnalyzer

/-- A Python landmark dict: association list from keys to numeric values.
`analyze_video` stores keys "id", "x", "y", "z", "visibility". -/
abbrev LandmarkDict := List (String × Rat)

/-- One raw landmark as MediaPipe reports it: x, y, z, visibility. -/
structure RawLandmark where
  x : Rat
  y : Rat
  z : Rat
  visibility : Rat
deriving Repr, DecidableEq

/-- The detector's behavior on one frame: either a detection result
(`none` = no pose found, `some lms` = the landmark list) or a raised
exception with a message (`pose.process` failing mid-loop). -/
inductive DetStep where
  | detect (r : Option (List RawLandmark))
  | raise (msg : String)
deriving Repr, DecidableEq

/-- The result of `cv2.VideoCapture(video_path)`: either the container
cannot be opened (`cap.isOpened()` false), or it opens with a frame rate
and a finite sequence of readable frames (frames are opaque, identified
by a `Nat` tag). -/
inductive OpenResult where
  | failure
  | success (fps : Rat) (frames : List Nat)
deriving Repr, DecidableEq

/-- An annotated frame: a copy of the source frame, with landmarks drawn
on it exactly when the detector reported a pose. -/
structure AnnotatedFrame where
  src : Nat
  drawn : Bool
deriving Repr, DecidableEq

/-- `dict[key]` with Python semantics: raises `KeyError` when absent. -/
def dictGet (d : LandmarkDict) (k : String) : Except String Rat :=
  match d.lookup k with
  | some v => Except.ok v
  | none => Except.error ("KeyError: " ++ k)

/-- The landmark dict built in `analyze_video`'s extraction loop:
`{'id': landmark_id, 'x': ..., 'y': ..., 'z': ..., 'visibility': ...}`
where `landmark_id` is the position from `enumerate`. -/
def mkLandmarkDict (i : Nat) (lm : RawLandmark) : LandmarkDict :=
  [("id", (i : Rat)), ("x", lm.x), ("y", lm.y), ("z", lm.z),
   ("visibility", lm.visibility)]

/-- `current_frame_landmarks` for one frame: empty when no pose was
detected, otherwise one dict per landmark with `id` from `enumerate`. -/
def extractFrameLandmarks : Option (List RawLandmark) → List LandmarkDict
  | none => []
  | some lms => lms.enum.map (fun p => mkLandmarkDict p.1 p.2)

/-- `annotated_frame`: `frame.copy()` with landmarks drawn iff detected. -/
def annotate (frame : Nat) (r : Option (List RawLandmark)) : AnnotatedFrame :=
  { src := frame, drawn := r.isSome }

/-- The `while cap.isOpened(): cap.read()` loop of `analyze_video`,
indexed by the current frame number. Per frame read it appends one
annotated frame and one (possibly empty) landmark list; a detector
exception propagates out (`Except.error`). -/
def analyzeLoop (det : Nat → DetStep) (idx : Nat) (frames : List Nat) :
    Except String (List (List LandmarkDict) × List AnnotatedFrame) :=
  match frames with
  | [] => Except.ok ([], [])
  | f :: rest =>
    match det idx with
    | DetStep.raise m => Except.error m
    | DetStep.detect r =>
      match analyzeLoop det (idx + 1) rest with
      | Except.error m => Except.error m
      | Except.ok (ds, fs) =>
        Except.ok (extractFrameLandmarks r :: ds, annotate f r :: fs)

/-- Observable outcome of `analyze_video`: its returned triple, whether
`cap.release()` / `pose.close()` executed, and whether an exception
escaped the function (`raised = some msg`). -/
structure AnalyzeResult where
  all_frames_data : Option (List (List LandmarkDict))
  processed_frames : Option (List AnnotatedFrame)
  fps : Option Rat
  capReleased : Bool
  poseClosed : Bool
  raised : Option String
deriving Repr, DecidableEq

/-- `analyze_video(video_path, output_format)`. The `pose` object is
created before the capture is opened; on open failure the function
returns `(None, None, None)` without `pose.close()`; a detector
exception skips both `cap.release()` and `pose.close()` (no
try/finally in the source); on normal termination both run. -/
def analyze_video (openRes : OpenResult) (det : Nat → DetStep) :
    AnalyzeResult :=
  match openRes with
  | OpenResult.failure =>
    { all_frames_data := none, processed_frames := none, fps := none,
      capReleased := false, poseClosed := false, raised := none }
  | OpenResult.success fps frames =>
    match analyzeLoop det 0 frames with
    | Except.error m =>
      { all_frames_data := none, processed_frames := none, fps := none,
        capReleased := false, poseClosed := false, raised := some m }
    | Except.ok (ds, fs) =>
      { all_frames_data := some ds, processed_frames := some fs,
        fps := some fps, capReleased := true, poseClosed := true,
        raised := none }

/-- Model of `os.path.basename`: the part after the last '/'. -/
def basename (p : String) : String :=
  String.mk (p.toList.foldl (fun acc c => if c = '/' then [] else acc.concat c) [])

/-- Model of the root part of `os.path.splitext`: strips the extension
at the last '.', keeping leading dots attached (`.bashrc` is unsplit). -/
def splitextRoot (name : String) : String :=
  let cs := name.toList
  let k := (cs.takeWhile (fun c => c = '.')).length
  let rest := cs.drop k
  match rest.reverse.findIdx? (fun c => c = '.') with
  | none => name
  | some i => String.mk (cs.take (k + (rest.length - 1 - i)))

/-- Model of `os.path.join` for relative second components. -/
def pathJoin (d f : String) : String :=
  if d = "" then f
  else if List.isSuffixOf ['/'] d.toList then d ++ f
  else d ++ "/" ++ f

deriving instance DecidableEq for Except

/-- One entry of the JSON `frames` array. -/
structure JsonFrame where
  timestamp : Rat
  poseLandmarks : List LandmarkDict
deriving Repr, DecidableEq

/-- The JSON document written by the "json" branch: exactly the two
fields `fps` and `frames`. -/
structure JsonDoc where
  fps : Rat
  frames : List JsonFrame
deriving Repr, DecidableEq

/-- One CSV cell: an integer (frame index), a numeric value from a
landmark dict, or the literal string "N/A". -/
inductive Cell where
  | int (n : Nat)
  | num (q : Rat)
  | na
deriving Repr, DecidableEq

/-- Contents of a written landmark-data file. -/
inductive FileContent where
  | jsonFile (d : JsonDoc)
  | csvFile (header : List String) (rows : List (List Cell))
deriving Repr, DecidableEq

/-- `formatted_data` of the "json" branch: `fps`, and per frame index a
`timestamp` of `frame_idx / fps if fps > 0 else 0` and the frame's
landmark dicts verbatim under `poseLandmarks`. -/
def jsonDocOf (all_frames_data : List (List LandmarkDict)) (fps : Rat) :
    JsonDoc :=
  { fps := fps
    frames := all_frames_data.enum.map (fun p =>
      { timestamp := if fps > 0 then (p.1 : Rat) / fps else 0
        poseLandmarks := p.2 }) }

/-- The CSV header row. -/
def csvHeader : List String :=
  ["frame_index", "landmark_id", "x", "y", "z", "visibility"]

/-- One CSV data row for one landmark dict: the source indexes
`landmark['landmark_id']`, `landmark['x']`, `landmark['y']`,
`landmark['z']` (each a KeyError if absent) and
`landmark.get('visibility', 'N/A')`. -/
def csvCellsOfLandmark (frame_idx : Nat) (lm : LandmarkDict) :
    Except String (List Cell) := do
  let lid ← dictGet lm "landmark_id"
  let x ← dictGet lm "x"
  let y ← dictGet lm "y"
  let z ← dictGet lm "z"
  let vis := match lm.lookup "visibility" with
    | some v => Cell.num v
    | none => Cell.na
  pure [Cell.int frame_idx, Cell.num lid, Cell.num x, Cell.num y,
        Cell.num z, vis]

/-- The rows for one frame: one row per landmark when the frame is
nonempty, else the single sentinel row `[frame_idx, N/A, ..., N/A]`. -/
def csvRowsOfFrame (frame_idx : Nat) (fl : List LandmarkDict) :
    Except String (List (List Cell)) :=
  if fl.isEmpty then
    Except.ok [[Cell.int frame_idx, Cell.na, Cell.na, Cell.na, Cell.na,
                Cell.na]]
  else
    fl.mapM (csvCellsOfLandmark frame_idx)

/-- All CSV data rows: empty when `all_frames_data` is empty (header
only), else concatenation over enumerated frames. -/
def csvRows (all_frames_data : List (List LandmarkDict)) :
    Except String (List (List Cell)) :=
  if all_frames_data.isEmpty then Except.ok []
  else do
    let rss ← all_frames_data.enum.mapM (fun p => csvRowsOfFrame p.1 p.2)
    pure rss.flatten

/-- `output_filename` of `save_landmarks_data`:
`{original_base_name}_{timestamp}_landmarks.{ext}`. -/
def landmarksFilename (original_video_path ts ext : String) : String :=
  splitextRoot (basename original_video_path) ++ "_" ++ ts ++
    "_landmarks." ++ ext

/-- The full output path of `save_landmarks_data`. -/
def landmarksPath (dir original_video_path ts ext : String) : String :=
  pathJoin dir (landmarksFilename original_video_path ts ext)

/-- Observable outcome of `save_landmarks_data`: the returned path, the
directories ensured by `os.makedirs`, and the files actually written. -/
structure SaveOutcome where
  outputPath : String
  dirsCreated : List String
  filesWritten : List (String × FileContent)
deriving Repr, DecidableEq

/-- `save_landmarks_data(all_frames_data, output_format,
original_video_path, fps, output_dir_landmarks)`. The timestamp from
`datetime.now()` is an explicit parameter. The directory is created and
the path composed before the format dispatch; a format other than
"json"/"csv" matches neither branch, so no file is written yet the path
is still returned. A `KeyError` raised while writing CSV rows surfaces
as `Except.error` (the partially written file on that path is not
modelled; no claim reads it). -/
def save_landmarks_data (all_frames_data : List (List LandmarkDict))
    (output_format original_video_path ts : String) (fps : Rat)
    (output_dir_landmarks : String) : Except String SaveOutcome :=
  let path := landmarksPath output_dir_landmarks original_video_path ts
    output_format
  if output_format = "json" then
    Except.ok { outputPath := path, dirsCreated := [output_dir_landmarks],
                filesWritten :=
                  [(path, FileContent.jsonFile (jsonDocOf all_frames_data fps))] }
  else if output_format = "csv" then
    match csvRows all_frames_data with
    | Except.error m => Except.error m
    | Except.ok rows =>
      Except.ok { outputPath := path,
                  dirsCreated := [output_dir_landmarks],
                  filesWritten := [(path, FileContent.csvFile csvHeader rows)] }
  else
    Except.ok { outputPath := path, dirsCreated := [output_dir_landmarks],
                filesWritten := [] }

/-- Observable outcome of `save_visualized_video`: the returned value
(`None` when there were no frames), the directories ensured, and the
video files written (content = the frame sequence). -/
structure VideoSaveOutcome where
  outputPath : Option String
  dirsCreated : List String
  filesWritten : List (String × List AnnotatedFrame)
deriving Repr, DecidableEq

/-- `{original_base_name}_{timestamp}_landmarked.mp4`. -/
def visualizedFilename (original_video_path ts : String) : String :=
  splitextRoot (basename original_video_path) ++ "_" ++ ts ++
    "_landmarked.mp4"

/-- `save_visualized_video(processed_frames, original_video_path, fps,
output_dir_visualized)`: returns `None` with no filesystem effect when
the frame list is empty, otherwise writes the frames at the composed
path and returns it. -/
def save_visualized_video (processed_frames : List AnnotatedFrame)
    (original_video_path ts : String) (output_dir_visualized : String) :
    VideoSaveOutcome :=
  if processed_frames.isEmpty then
    { outputPath := none, dirsCreated := [], filesWritten := [] }
  else
    let path := pathJoin output_dir_visualized
      (visualizedFilename original_video_path ts)
    { outputPath := some path, dirsCreated := [output_dir_visualized],
      filesWritten := [(path, processed_frames)] }

/-- The default output directory of `save_landmarks_data`. -/
def landmarksDir : String := "output/landmarks_data/"

/-- The default output directory of `save_visualized_video`. -/
def visualizedDir : String := "output/visualized/"

/-- "エラー: 動画ファイルを選択してください。" — no file selected. -/
def msgNoFile : String := "エラー: 動画ファイルを選択してください。"

/-- The abort message returned when `analyze_video` yields `None`s,
i.e. when the video container could not be opened. -/
def msgAnalysisFailed : String :=
  "エラー: 動画解析に失敗しました。サポートされていない動画形式か、動画が破損している可能性があります。"

/-- The warning returned when zero frames could be processed. -/
def msgEmptyVideo : String :=
  "警告: 動画からフレームを処理できませんでした。動画が空か非常に短い可能性があります。"

/-- The abort message when both save results are falsy. -/
def msgSaveFailed : String := "エラー: 解析結果の保存に失敗しました。"

/-- The plain success message. -/
def msgSuccess : String := "処理が正常に完了しました。"

/-- Suffix appended when the visualized-video path is falsy. -/
def noteVideoFailed : String := " (注意: 可視化動画の保存に失敗)"

/-- Suffix appended when the landmark-data path is falsy. -/
def noteDataFailed : String := " (注意: ランドマークデータの保存に失敗)"

/-- The catch-all handler's message, `f"予期せぬエラーが発生しました: {e}"`. -/
def msgUnexpected (e : String) : String :=
  "予期せぬエラーが発生しました: " ++ e

/-- Observable outcome of `process_video_and_update_ui`: the returned
triple, which save stages were entered, and the aggregate filesystem
effects. -/
structure OrchResult where
  videoPath : Option String
  dataPath : Option String
  status : String
  dataSaveAttempted : Bool
  videoSaveAttempted : Bool
  dirsCreated : List String
  dataFilesWritten : List (String × FileContent)
  videoFilesWritten : List (String × List AnnotatedFrame)
deriving Repr, DecidableEq

/-- An `OrchResult` for the paths that return before any save:
`(None, None, msg)` with no filesystem effect. -/
def earlyReturn (msg : String) : OrchResult :=
  { videoPath := none, dataPath := none, status := msg,
    dataSaveAttempted := false, videoSaveAttempted := false,
    dirsCreated := [], dataFilesWritten := [], videoFilesWritten := [] }

/-- `process_video_and_update_ui(video_file_obj, output_format_choice)`.
Environment parameters: `openRes` is the result of opening the path,
`det` the detector's per-frame behavior, `ts1`/`ts2` the two
`datetime.now()` timestamps of the two save calls. The whole body runs
inside `try`, whose `except` returns `(None, None, msgUnexpected e)`:
an exception raised by the landmark-data save therefore skips the
video save entirely. Step 4's truthiness tests are `Option.isNone` for
the video path and `= ""` for the data path (a Python `str`). -/
def process_video_and_update_ui (video_file_obj : Option String)
    (output_format_choice : String) (openRes : OpenResult)
    (det : Nat → DetStep) (ts1 ts2 : String) : OrchResult :=
  match video_file_obj with
  | none => earlyReturn msgNoFile
  | some video_path =>
    let ar := analyze_video openRes det
    match ar.raised with
    | some e => earlyReturn (msgUnexpected e)
    | none =>
      match ar.all_frames_data, ar.processed_frames, ar.fps with
      | some all_frames_data, some processed_frames, some fps =>
        if processed_frames.isEmpty then earlyReturn msgEmptyVideo
        else
          match save_landmarks_data all_frames_data output_format_choice
              video_path ts1 fps landmarksDir with
          | Except.error e =>
            { earlyReturn (msgUnexpected e) with dataSaveAttempted := true }
          | Except.ok so =>
            let vo := save_visualized_video processed_frames video_path
              ts2 visualizedDir
            let landmarks_file_path := so.outputPath
            let visualized_video_path := vo.outputPath
            if visualized_video_path.isNone ∧ landmarks_file_path = "" then
              { earlyReturn msgSaveFailed with
                dataSaveAttempted := true, videoSaveAttempted := true,
                dirsCreated := so.dirsCreated ++ vo.dirsCreated,
                dataFilesWritten := so.filesWritten,
                videoFilesWritten := vo.filesWritten }
            else
              let m1 := msgSuccess
              let m2 := if visualized_video_path.isNone then
                  m1 ++ noteVideoFailed else m1
              let m3 := if landmarks_file_path = "" then
                  m2 ++ noteDataFailed else m2
              { videoPath := visualized_video_path,
                dataPath := some landmarks_file_path, status := m3,
                dataSaveAttempted := true, videoSaveAttempted := true,
                dirsCreated := so.dirsCreated ++ vo.dirsCreated,
                dataFilesWritten := so.filesWritten,
                videoFilesWritten := vo.filesWritten }
      | _, _, _ => earlyReturn msgAnalysisFailed

/-- A sample landmark with the coordinates of the repository's test data. -/
def sampleLm : RawLandmark := ⟨1/10, 1/5, 3/10, 99/100⟩

/-- A detector that reports the single landmark `sampleLm` on every frame. -/
def cDet : Nat → DetStep := fun _ => DetStep.detect (some [sampleLm])

/-- The extraction loop appends exactly one landmark list and one annotated
frame per frame read, so both outputs have the source's length. -/
theorem analyzeLoop_length (det : Nat → DetStep) (frames : List Nat) :
    ∀ (idx : Nat) (ds : List (List LandmarkDict)) (fs : List AnnotatedFrame),
      analyzeLoop det idx frames = Except.ok (ds, fs) →
      ds.length = frames.length ∧ fs.length = frames.length := by
  induction frames with
  | nil =>
    intro idx ds fs h
    simp only [analyzeLoop, Except.ok.injEq] at h
    obtain ⟨h1, h2⟩ := Prod.mk.injEq .. ▸ h
    simp [← h1, ← h2]
  | cons f rest ih =>
    intro idx ds fs h
    simp only [analyzeLoop] at h
    cases hd : det idx with
    | raise m => rw [hd] at h; exact absurd h (by simp)
    | detect r =>
      rw [hd] at h
      cases hl : analyzeLoop det (idx + 1) rest with
      | error m => rw [hl] at h; exact absurd h (by simp)
      | ok p =>
        obtain ⟨ds', fs'⟩ := p
        rw [hl] at h
        simp only [Except.ok.injEq, Prod.mk.injEq] at h
        obtain ⟨h1, h2⟩ := h
        have hih := ih (idx + 1) ds' fs' hl
        subst h1; subst h2
        simp [hih.1, hih.2]

/-- Every successful save returns the composed output path and records the
output directory as created. -/
theorem save_landmarks_data_ok_path (afd : List (List LandmarkDict))
    (fmt p ts d : String) (fps : Rat) (so : SaveOutcome)
    (h : save_landmarks_data afd fmt p ts fps d = Except.ok so) :
    so.outputPath = landmarksPath d p ts fmt ∧ so.dirsCreated = [d] := by
  unfold save_landmarks_data at h
  by_cases hj : fmt = "json"
  · rw [if_pos hj] at h
    cases h
    exact ⟨rfl, rfl⟩
  · rw [if_neg hj] at h
    by_cases hc : fmt = "csv"
    · rw [if_pos hc] at h
      cases hr : csvRows afd with
      | error m => rw [hr] at h; exact absurd h (by simp)
      | ok rows => rw [hr] at h; cases h; exact ⟨rfl, rfl⟩
    · rw [if_neg hc] at h
      cases h
      exact ⟨rfl, rfl⟩

/-- The landmark-data output path under the default directory is never the
empty string, hence never falsy in Python. -/
theorem landmarksPath_ne_empty (p ts ext : String) :
    landmarksPath landmarksDir p ts ext ≠ "" := by
  intro h
  have heq : landmarksPath landmarksDir p ts ext
      = landmarksDir ++ landmarksFilename p ts ext := by
    rw [landmarksPath, pathJoin, if_neg (by decide), if_pos (by decide)]
  have hd : (landmarksDir ++ landmarksFilename p ts ext).data = [] := by
    rw [← heq, h]
  rw [String.data_append] at hd
  exact absurd (List.append_eq_nil.mp hd).1 (by decide)

/-- C1. The claim says the CSV encoder writes, for every (frame, landmark)
pair of an extraction-produced series, a data row carrying the landmark's
id, x, y, z, visibility. The code cannot: the extraction loop stores the
joint index under the dict key "id", while the CSV writer indexes the dict
with the key "landmark_id", so saving any extraction-produced series with a
nonempty frame raises `KeyError: landmark_id` instead of writing the rows.
This theorem evaluates the embedded code at the failing input and exhibits
the key mismatch. -/
theorem c1_csv_keyerror_on_extracted_data :
    save_landmarks_data [extractFrameLandmarks (some [sampleLm])] "csv"
        "test_video.mp4" "20251012_120000" 30 landmarksDir
      = Except.error "KeyError: landmark_id"
    ∧ (mkLandmarkDict 0 sampleLm).lookup "id" = some 0
    ∧ (mkLandmarkDict 0 sampleLm).lookup "landmark_id" = none := by
  refine ⟨by decide, by decide, by decide⟩

/-- C6. For a video that opens but yields zero frames, the orchestrator
returns `(None, None, empty/too-short warning)` before either save stage,
creating no directories and writing no files. -/
theorem c6_zero_frames_early_return (path fmt : String) (fps : Rat)
    (det : Nat → DetStep) (ts1 ts2 : String) :
    process_video_and_update_ui (some path) fmt (OpenResult.success fps [])
      det ts1 ts2 = earlyReturn msgEmptyVideo := rfl

/-- C7. For a video whose container cannot be opened, the orchestrator
aborts before extraction with the could-not-open/analysis-failed error
message, returning `(None, None, msg)` with no save stage attempted and no
files or directories created. -/
theorem c7_open_failure_abort (path fmt : String) (det : Nat → DetStep)
    (ts1 ts2 : String) :
    process_video_and_update_ui (some path) fmt OpenResult.failure det
      ts1 ts2 = earlyReturn msgAnalysisFailed := rfl

/-- C8. Both encoders are deterministic functions of the series, the frame
rate and the generation timestamp: two invocations agreeing on those (and
on the fixed path arguments) produce identical outcomes, file contents
included. -/
theorem c8_save_deterministic (s1 s2 : List (List LandmarkDict))
    (fmt p d ts1 ts2 : String) (fps1 fps2 : Rat)
    (hs : s1 = s2) (hf : fps1 = fps2) (ht : ts1 = ts2) :
    save_landmarks_data s1 fmt p ts1 fps1 d
      = save_landmarks_data s2 fmt p ts2 fps2 d := by
  subst hs; subst hf; subst ht; rfl

/-- Witness for C8 at a concrete series, format, fps and timestamp. -/
theorem c8_save_deterministic_witness :
    ([[]] : List (List LandmarkDict)) = [[]] ∧ (30 : Rat) = 30
    ∧ "TS" = "TS"
    ∧ save_landmarks_data [[]] "csv" "v.mp4" "TS" 30 landmarksDir
        = save_landmarks_data [[]] "csv" "v.mp4" "TS" 30 landmarksDir :=
  ⟨rfl, rfl, rfl,
    c8_save_deterministic [[]] [[]] "csv" "v.mp4" landmarksDir "TS" "TS"
      30 30 rfl rfl rfl⟩

/-- C9. In every frame's extracted landmark list, the dict at position j
carries id = j (the id is assigned by `enumerate` over the detector's
output), so the ids are exactly 0..n-1 in order with no gaps or
duplicates. -/
theorem c9_landmark_ids_enumerated (r : Option (List RawLandmark)) (j : Nat)
    (h : j < (extractFrameLandmarks r).length) :
    ((extractFrameLandmarks r).get ⟨j, h⟩).lookup "id" = some (j : Rat) := by
  cases r with
  | none => simp [extractFrameLandmarks] at h
  | some lms =>
    simp [extractFrameLandmarks, List.get_eq_getElem, List.getElem_map,
      List.getElem_enum, mkLandmarkDict, List.lookup]

/-- Witness for C9 on a two-landmark frame at position 1. -/
theorem c9_landmark_ids_enumerated_witness :
    1 < (extractFrameLandmarks (some [sampleLm, sampleLm])).length
    ∧ ((extractFrameLandmarks (some [sampleLm, sampleLm])).get
        ⟨1, by decide⟩).lookup "id" = some (1 : Rat) :=
  ⟨by decide,
    c9_landmark_ids_enumerated (some [sampleLm, sampleLm]) 1 (by decide)⟩

/-- C10. For any output format other than "json" and "csv", the save
composes and returns the output path and creates the output directory, but
matches neither write branch, so no file is written at the returned
path. -/
theorem c10_unknown_format_no_write (fmt : String) (h1 : fmt ≠ "json")
    (h2 : fmt ≠ "csv") (afd : List (List LandmarkDict)) (p ts d : String)
    (fps : Rat) :
    save_landmarks_data afd fmt p ts fps d
      = Except.ok { outputPath := landmarksPath d p ts fmt,
                    dirsCreated := [d], filesWritten := [] } := by
  unfold save_landmarks_data
  rw [if_neg h1, if_neg h2]

/-- Witness for C10 at the format "xml". -/
theorem c10_unknown_format_no_write_witness :
    ("xml" : String) ≠ "json" ∧ ("xml" : String) ≠ "csv"
    ∧ save_landmarks_data [] "xml" "v.mp4" "TS" 30 landmarksDir
        = Except.ok { outputPath := landmarksPath landmarksDir "v.mp4" "TS" "xml",
                      dirsCreated := [landmarksDir], filesWritten := [] } :=
  ⟨by decide, by decide,
    c10_unknown_format_no_write "xml" (by decide) (by decide) [] "v.mp4"
      "TS" landmarksDir 30⟩

/-- C3. Saving in json format writes, at the composed path, a document
with exactly the fields `fps` and `frames` (`JsonDoc` has no others),
where the frames array has one entry per series frame, entry i carries
timestamp `i / fps` when `fps > 0` and `0` otherwise, and entry i's
`poseLandmarks` is the i-th frame's landmark list verbatim — in
particular an empty list, present rather than omitted, for a frame with
no detection. -/
theorem c3_json_save_format (afd : List (List LandmarkDict)) (fps : Rat)
    (p ts d : String) (i : Nat) (h : i < afd.length) :
    save_landmarks_data afd "json" p ts fps d
      = Except.ok { outputPath := landmarksPath d p ts "json",
                    dirsCreated := [d],
                    filesWritten := [(landmarksPath d p ts "json",
                      FileContent.jsonFile (jsonDocOf afd fps))] }
    ∧ (jsonDocOf afd fps).fps = fps
    ∧ (jsonDocOf afd fps).frames.length = afd.length
    ∧ ((jsonDocOf afd fps).frames.get
          ⟨i, by simpa [jsonDocOf] using h⟩).timestamp
        = (if fps > 0 then (i : Rat) / fps else 0)
    ∧ ((jsonDocOf afd fps).frames.get
          ⟨i, by simpa [jsonDocOf] using h⟩).poseLandmarks
        = afd.get ⟨i, h⟩ := by
  refine ⟨rfl, rfl, by simp [jsonDocOf], ?_, ?_⟩ <;>
    simp [jsonDocOf, List.get_eq_getElem, List.getElem_map, List.getElem_enum]

/-- Witness for C3 on a one-frame series with no detection. -/
theorem c3_json_save_format_witness :
    0 < ([[]] : List (List LandmarkDict)).length
    ∧ (save_landmarks_data [[]] "json" "v.mp4" "TS" 30 landmarksDir
        = Except.ok { outputPath := landmarksPath landmarksDir "v.mp4" "TS" "json",
                      dirsCreated := [landmarksDir],
                      filesWritten := [(landmarksPath landmarksDir "v.mp4" "TS" "json",
                        FileContent.jsonFile (jsonDocOf [[]] 30))] }
      ∧ (jsonDocOf [[]] 30).fps = 30
      ∧ (jsonDocOf [[]] 30).frames.length = ([[]] : List (List LandmarkDict)).length
      ∧ ((jsonDocOf [[]] 30).frames.get ⟨0, by decide⟩).timestamp
          = (if (30 : Rat) > 0 then ((0 : Nat) : Rat) / 30 else 0)
      ∧ ((jsonDocOf [[]] 30).frames.get ⟨0, by decide⟩).poseLandmarks
          = ([[]] : List (List LandmarkDict)).get ⟨0, by decide⟩) :=
  ⟨by decide, c3_json_save_format [[]] 30 "v.mp4" "TS" landmarksDir 0 (by decide)⟩

/-- C5. For every successfully opened video on which no detector exception
occurs, the extraction returns one landmark entry (possibly empty) and one
annotated frame per frame read: both returned lists have exactly the
length of the source's frame sequence, so no frame index is skipped. -/
theorem c5_series_alignment (fps : Rat) (frames : List Nat)
    (det : Nat → DetStep) (ds : List (List LandmarkDict))
    (fs : List AnnotatedFrame)
    (hd : (analyze_video (OpenResult.success fps frames) det).all_frames_data
        = some ds)
    (hf : (analyze_video (OpenResult.success fps frames) det).processed_frames
        = some fs) :
    ds.length = frames.length ∧ fs.length = frames.length := by
  cases hl : analyzeLoop det 0 frames with
  | error m => simp [analyze_video, hl] at hd
  | ok p =>
    obtain ⟨ds', fs'⟩ := p
    simp only [analyze_video, hl, Option.some.injEq] at hd hf
    subst hd; subst hf
    exact analyzeLoop_length det frames 0 ds' fs' hl

/-- Witness for C5 on a one-frame video with a detecting detector. -/
theorem c5_series_alignment_witness :
    (analyze_video (OpenResult.success 30 [0]) cDet).all_frames_data
        = some [extractFrameLandmarks (some [sampleLm])]
    ∧ (analyze_video (OpenResult.success 30 [0]) cDet).processed_frames
        = some [annotate 0 (some [sampleLm])]
    ∧ ([extractFrameLandmarks (some [sampleLm])].length = [0].length
        ∧ [annotate 0 (some [sampleLm])].length = [0].length) :=
  ⟨rfl, rfl, c5_series_alignment 30 [0] cDet _ _ rfl rfl⟩

/-- C4 counterexample. The claim says the capture is released and the
detector closed on every exit path. Concretely false on two paths: when
the container cannot be opened, `analyze_video` returns early with the
already-created detector never closed; and when the detector raises on
frame 0, the exception escapes with neither the capture released nor the
detector closed. -/
theorem c4_counterexample :
    ((analyze_video OpenResult.failure cDet).poseClosed = false
      ∧ (analyze_video OpenResult.failure cDet).capReleased = false)
    ∧ ((analyze_video (OpenResult.success 30 [0])
          (fun _ => DetStep.raise "boom")).poseClosed = false
      ∧ (analyze_video (OpenResult.success 30 [0])
          (fun _ => DetStep.raise "boom")).capReleased = false
      ∧ (analyze_video (OpenResult.success 30 [0])
          (fun _ => DetStep.raise "boom")).raised = some "boom") := by
  refine ⟨⟨rfl, rfl⟩, rfl, rfl, rfl⟩

/-- C4 amended. The capture is released and the detector closed exactly on
the normal-completion exit path: both cleanups run iff the container
opened and no detector exception escaped (there is no try/finally in the
source, so the open-failure early return leaves the detector open and an
exceptional exit leaves both resources open). -/
theorem c4_release_iff_normal_completion (openRes : OpenResult)
    (det : Nat → DetStep) :
    ((analyze_video openRes det).capReleased = true
        ∧ (analyze_video openRes det).poseClosed = true)
    ↔ ((analyze_video openRes det).raised = none
        ∧ (analyze_video openRes det).all_frames_data.isSome = true) := by
  cases openRes with
  | failure => simp [analyze_video]
  | success fps frames =>
    cases hl : analyzeLoop det 0 frames with
    | error m => simp [analyze_video, hl]
    | ok p => obtain ⟨ds, fs⟩ := p; simp [analyze_video, hl]

/-- C2 counterexample. The claim says a raised error in the landmark-data
save does not prevent the annotated-video save from being attempted, and
that a single failure yields an annotated success message. Concretely
false: on a one-frame video with a detection, csv format makes
`save_landmarks_data` raise `KeyError: landmark_id`; the exception jumps
to the catch-all handler, the video save is never attempted, and the run
returns `(None, None, unexpected-error message)` — neither the both-fail
abort nor an annotated success. -/
theorem c2_counterexample :
    process_video_and_update_ui (some "v.mp4") "csv"
        (OpenResult.success 30 [0]) cDet "t1" "t2"
      = { earlyReturn (msgUnexpected "KeyError: landmark_id") with
          dataSaveAttempted := true }
    ∧ (process_video_and_update_ui (some "v.mp4") "csv"
        (OpenResult.success 30 [0]) cDet "t1" "t2").videoSaveAttempted
      = false := by
  refine ⟨by decide, by decide⟩

/-- C2 amended. For every run that reaches the saving stage: a raised
error in the landmark-data save propagates to the catch-all handler, so
the annotated-video save is not attempted and the run returns
`(None, None, unexpected-error message)` rather than any
partially-failed success; and when the landmark-data save returns
normally, the video save is attempted and — the landmark path being a
nonempty string and the frame list nonempty — the run returns both paths
with the plain success message (the "failed to save results" abort and
the annotated success messages are unreachable on these runs). -/
theorem c2_save_exception_aborts_run (path fmt ts1 ts2 : String)
    (fps : Rat) (frames : List Nat) (det : Nat → DetStep)
    (ds : List (List LandmarkDict)) (fs : List AnnotatedFrame)
    (hloop : analyzeLoop det 0 frames = Except.ok (ds, fs))
    (hne : frames ≠ []) :
    (∀ e, save_landmarks_data ds fmt path ts1 fps landmarksDir
        = Except.error e →
      process_video_and_update_ui (some path) fmt
          (OpenResult.success fps frames) det ts1 ts2
        = { earlyReturn (msgUnexpected e) with dataSaveAttempted := true })
    ∧ (∀ so, save_landmarks_data ds fmt path ts1 fps landmarksDir
        = Except.ok so →
      (process_video_and_update_ui (some path) fmt
          (OpenResult.success fps frames) det ts1 ts2).status = msgSuccess
      ∧ (process_video_and_update_ui (some path) fmt
          (OpenResult.success fps frames) det ts1 ts2).videoSaveAttempted
        = true
      ∧ (process_video_and_update_ui (some path) fmt
          (OpenResult.success fps frames) det ts1 ts2).dataPath
        = some so.outputPath
      ∧ (process_video_and_update_ui (some path) fmt
          (OpenResult.success fps frames) det ts1 ts2).videoPath
        = some (pathJoin visualizedDir (visualizedFilename path ts2))) := by
  have hA : analyze_video (OpenResult.success fps frames) det
      = { all_frames_data := some ds, processed_frames := some fs,
          fps := some fps, capReleased := true, poseClosed := true,
          raised := none } := by
    simp [analyze_video, hloop]
  have hfs : fs.isEmpty = false := by
    have hlen := (analyzeLoop_length det frames 0 ds fs hloop).2
    cases fs with
    | nil => cases frames with
      | nil => exact absurd rfl hne
      | cons f r => simp at hlen
    | cons a l => rfl
  constructor
  · intro e he
    simp [process_video_and_update_ui, hA, hfs, he]
  · intro so hso
    have hpath := save_landmarks_data_ok_path ds fmt path ts1 landmarksDir
      fps so hso
    have hovNe : (save_visualized_video fs path ts2 visualizedDir).outputPath
        = some (pathJoin visualizedDir (visualizedFilename path ts2)) := by
      simp [save_visualized_video, hfs]
    have hsoNe : ¬ so.outputPath = "" := by
      rw [hpath.1]; exact landmarksPath_ne_empty path ts1 fmt
    refine ⟨?_, ?_, ?_, ?_⟩ <;>
      simp [process_video_and_update_ui, hA, hfs, hso,
        save_visualized_video, hsoNe]

/-- Witness for the amended C2: a one-frame detected video saved as csv
raises inside the landmark-data save, and the run returns the
unexpected-error triple with the video save never attempted. -/
theorem c2_save_exception_aborts_run_witness :
    analyzeLoop cDet 0 [0]
      = Except.ok ([extractFrameLandmarks (some [sampleLm])],
                   [annotate 0 (some [sampleLm])])
    ∧ ([0] : List Nat) ≠ []
    ∧ save_landmarks_data [extractFrameLandmarks (some [sampleLm])] "csv"
        "v.mp4" "t1" 30 landmarksDir
      = Except.error "KeyError: landmark_id"
    ∧ process_video_and_update_ui (some "v.mp4") "csv"
        (OpenResult.success 30 [0]) cDet "t1" "t2"
      = { earlyReturn (msgUnexpected "KeyError: landmark_id") with
          dataSaveAttempted := true } :=
  ⟨rfl, by decide, by decide,
    (c2_save_exception_aborts_run "v.mp4" "csv" "t1" "t2" 30 [0] cDet
        [extractFrameLandmarks (some [sampleLm])]
        [annotate 0 (some [sampleLm])] rfl (by decide)).1
      "KeyError: landmark_id" (by decide)⟩

end PoseAnalyzer
